import Mathlib

/-
Verification of the OAuth2 / OpenID Connect SSO authentication flow of
baserow_enterprise (src/enterprise/backend/src/baserow_enterprise/sso/oauth2/
auth_provider_types.py), as a shallow embedding.

Modelling conventions:
- Python exceptions become the inductive type Exc; a function that can raise
  returns Except Exc α.  A try/except block becomes a match on that Except.
- Python dicts with string keys become association lists; dict.get, dict.pop
  and item assignment become jget, spop, jinsert and friends below.
- Network and cryptographic calls (requests.get, OAuth2Session.fetch_token,
  jwt.decode) are oracles supplied as function-valued parameters, since their
  outcome is decided by the remote provider, not by this code.
- The Django session object becomes an association list from string keys to
  string values, threaded explicitly through every function that mutates it.
-/

/-- Model of the Python exception values that appear in this module.
AuthFlowError and InvalidProviderUrl are the two errors of
baserow_enterprise.sso.exceptions; AuthFlowError carries an optional message
(none models AuthFlowError() raised with no argument).  The remaining
constructors model upstream exceptions (requests, json, jwt, attribute
errors) that the code catches or lets propagate. -/
inductive Exc where
  | authFlowError (msg : Option String)
  | invalidProviderUrl
  | keyError (k : String)
  | jsonDecodeError
  | attributeError (detail : String)
  | httpError (detail : String)
  | jwtError (detail : String)
  | otherError (detail : String)
deriving DecidableEq, Repr

/-- The fragment of Python/JSON values these flows read from provider
responses: null or a string. -/
inductive JVal where
  | null
  | str (s : String)
deriving DecidableEq, Repr

/-- A JSON object (Python dict with string keys), as an association list. -/
def JsonObj : Type := List (String × JVal)

instance : DecidableEq JsonObj := by unfold JsonObj; infer_instance

/-- dict.get(k): the value under k, or none when the key is missing. -/
def jget (data : JsonObj) (k : String) : Option JVal :=
  (data.find? (fun kv => kv.1 == k)).map (fun kv => kv.2)

/-- dict.get(k, d): the value under k, or the default d when missing. -/
def jgetD (data : JsonObj) (k : String) (d : JVal) : JVal :=
  (jget data k).getD d

/-- dict item assignment data[k] = v (replaces any previous binding). -/
def jinsert (data : JsonObj) (k : String) (v : JVal) : JsonObj :=
  (k, v) :: data.filter (fun kv => !(kv.1 == k))

/-- Converts a Python value that is null or a string to Option String. -/
def jvalToOpt : JVal → Option String
  | JVal.null => none
  | JVal.str s => some s

/-- dict.get(k) for a value used as an optional string: missing key and a
null value both become none. -/
def jgetStr (data : JsonObj) (k : String) : Option String :=
  (jget data k).bind jvalToOpt

/-- The request parameters stored in the session (a flat Python dict of
string keys to string values, e.g. workspace_invitation_token, language,
original). -/
def ReqParams : Type := List (String × String)

instance : DecidableEq ReqParams := by unfold ReqParams; infer_instance

/-- dict.get(k, None) on request parameters. -/
def rdGet (d : ReqParams) (k : String) : Option String :=
  (d.find? (fun kv => kv.1 == k)).map (fun kv => kv.2)

/-- The Django session object: string keys to string values.  The code under
verification stores only strings (the CSRF state and a JSON-serialized
parameter dict). -/
def Session : Type := List (String × String)

instance : DecidableEq Session := by unfold Session; infer_instance

/-- session[k] read access (none when missing). -/
def sget (s : Session) (k : String) : Option String :=
  (s.find? (fun kv => kv.1 == k)).map (fun kv => kv.2)

/-- Removes the binding of k, if any. -/
def sremove (s : Session) (k : String) : Session :=
  s.filter (fun kv => !(kv.1 == k))

/-- session[k] = v assignment. -/
def sinsert (s : Session) (k : String) (v : String) : Session :=
  (k, v) :: sremove s k

/-- session.pop(k): the popped value (none models the KeyError case) and the
session without the binding. -/
def spop (s : Session) (k : String) : Option String × Session :=
  (sget s k, sremove s k)

/-- The test k in session. -/
def scontains (s : Session) (k : String) : Bool :=
  (sget s k).isSome

def lbrace : Char := Char.ofNat 123

def rbrace : Char := Char.ofNat 125

def dquote : Char := Char.ofNat 34

/-- Model of json.dumps on a flat dict of strings, matching the Python
output format (keys and values quoted, entries separated by a comma and a
space, a colon and a space between key and value). -/
def dumps (d : ReqParams) : String :=
  String.mk [lbrace] ++
    String.intercalate ", "
      (d.map (fun kv =>
        String.mk [dquote] ++ kv.1 ++ String.mk [dquote, ':', ' ', dquote]
          ++ kv.2 ++ String.mk [dquote])) ++
    String.mk [rbrace]

/-- Consumes characters of a quoted string up to the closing quote. -/
def takeStr : List Char → List Char → Option (String × List Char)
  | [], _ => none
  | c :: rest, acc =>
    if c = dquote then some (String.mk acc.reverse, rest)
    else takeStr rest (c :: acc)

/-- Parses the comma-separated quoted key/value pairs between the braces of
a serialized flat dict. -/
def parsePairs : Nat → List Char → Option ReqParams
  | 0, _ => none
  | _ + 1, [] => none
  | fuel + 1, c :: cs =>
    if c = dquote then
      match takeStr cs [] with
      | none => none
      | some (k, cs1) =>
        match cs1 with
        | ':' :: ' ' :: c2 :: cs2 =>
          if c2 = dquote then
            match takeStr cs2 [] with
            | none => none
            | some (v, cs3) =>
              match cs3 with
              | [] => some [(k, v)]
              | ',' :: ' ' :: cs4 =>
                (parsePairs fuel cs4).map (fun rest => (k, v) :: rest)
              | _ => none
          else none
        | _ => none
    else none

/-- Model of json.loads restricted to the flat string-object fragment that
push_request_data_to_session produces; any other input fails to parse,
modelling json.JSONDecodeError as none.  In particular a CSRF state string
or any input that does not start with an opening brace is rejected. -/
def loads (s : String) : Option ReqParams :=
  match s.data with
  | [] => none
  | c :: rest =>
    if c = lbrace then
      match rest with
      | [] => none
      | [r] => if r = rbrace then some [] else none
      | _ =>
        if rest.getLast? = some rbrace then
          parsePairs (s.length + 1) rest.dropLast
        else none
    else none

/-- The characters Python str.strip removes. -/
def isPySpace (c : Char) : Bool :=
  c = ' ' || c = Char.ofNat 9 || c = Char.ofNat 10 || c = Char.ofNat 13
    || c = Char.ofNat 11 || c = Char.ofNat 12

/-- Removes trailing whitespace of a character list. -/
def dropTrailing (cs : List Char) : List Char :=
  (cs.reverse.dropWhile isPySpace).reverse

/-- Python str.strip on a character list. -/
def pyStripList (cs : List Char) : List Char :=
  dropTrailing (cs.dropWhile isPySpace)

/-- Python str.strip. -/
def pyStrip (s : String) : String :=
  String.mk (pyStripList s.data)

/-- value.strip() on a JSON value: an AttributeError when the value is null
(Python None has no strip method). -/
def pyStripJ : JVal → Except Exc String
  | JVal.null => Except.error (Exc.attributeError "NoneType has no strip")
  | JVal.str s => Except.ok (pyStrip s)


/-- The provider configuration row (subclass of AuthProviderModel): the
fields of the model classes that the verified functions read.  For the fixed
providers (Google, GitHub, Facebook) authorization_url, access_token_url and
user_info_url hold the class constants AUTHORIZATION_URL, ACCESS_TOKEN_URL
and USER_INFO_URL; for GitLab they hold the values templated from base_url;
for OpenID Connect they hold the discovered endpoint values, so get_base_url,
get_access_token_url and get_user_info_url read these fields uniformly. -/
structure AuthProviderModel where
  id : Nat
  client_id : String
  secret : String
  authorization_url : String
  access_token_url : String
  user_info_url : String
  scope : String
deriving DecidableEq, Repr

/-- The OpenID Connect provider row, with the extra fields of
OpenIdConnectAuthProviderModel read by the OIDC mixin. -/
structure OpenIdConnectAuthProviderModel extends AuthProviderModel where
  use_id_token : Bool
  email_attr_key : String
  first_name_attr_key : String
  last_name_attr_key : String
  jwks_url : String
  issuer : String
deriving DecidableEq, Repr

/-- The token dict returned by the token endpoint.  The code reads the
access_token entry (GitHub) and tests membership of the id_token entry
(OpenID Connect); id_token = none models a token dict with no id_token
key. -/
structure Token where
  access_token : Option String
  id_token : Option String
deriving DecidableEq, Repr

/-- The normalized identity produced by a successful callback
(baserow.core.auth_provider.types.UserInfo).  name and email hold None when
the provider response carried no usable value, matching the Python object
whose fields are filled from dict.get. -/
structure UserInfo where
  name : Option String
  email : Option String
  workspace_invitation_token : Option String
  language : Option String
deriving DecidableEq, Repr

/-- One element of the JSON list returned by the GitHub emails endpoint:
either a JSON object with an optional email field and a primary flag (the
flag is false when the key is missing or its value is falsy), or a non-dict
JSON element carrying its raw value, which the code treats specially via
isinst. -/
inductive GhEmail where
  | obj (email : Option String) (primary : Bool)
  | raw (s : String)
deriving DecidableEq, Repr

/-- isinstance(e, dict) on an emails-list element. -/
def ghIsDict : GhEmail → Bool
  | GhEmail.obj _ _ => true
  | GhEmail.raw _ => false

/-- e.get(key) truthiness for the primary flag of a dict element; unused for
non-dict elements. -/
def ghPrimary : GhEmail → Bool
  | GhEmail.obj _ p => p
  | GhEmail.raw _ => false

/-- The value the code extracts from the selected element: e.get(key, empty)
for a dict element, the element itself otherwise. -/
def ghExtract : GhEmail → String
  | GhEmail.obj em _ => em.getD ""
  | GhEmail.raw s => s

/-- The response of the GitHub emails endpoint: HTTP status and decoded JSON
body (a list). -/
structure GhEmailsResp where
  status : Nat
  emails : List GhEmail
deriving DecidableEq, Repr

/-- Model of requests_oauthlib.OAuth2Session as constructed by
get_oauth_session: the constructor arguments.  state = none models a session
constructed without the state keyword. -/
structure OAuth2SessionM where
  client_id : String
  redirect_uri : String
  scope : String
  state : Option String
deriving DecidableEq, Repr

/-- The outcome oracles for the HTTP calls the flow makes.  fetch_token
receives the token URL, the authorization code, the client secret and the
CSRF state of the OAuth2Session; get_json models the authenticated GET of
the user-info URL followed by .json(); get_emails models requests.get on the
GitHub emails endpoint with the given Authorization header, followed by
.json().  Each may fail with any upstream exception. -/
structure HttpEnv where
  fetch_token : String → String → String → Option String → Except Exc Token
  get_json : String → Token → Except Exc JsonObj
  get_emails : String → Except Exc GhEmailsResp

namespace BaseOAuth2

/-- get_callback_url of OAuth2AuthProviderMixin: urljoin of the backend URL
and the reversed callback route for the provider id. -/
def get_callback_url (inst : AuthProviderModel) : String :=
  "/api/sso/oauth2/callback/" ++ toString inst.id ++ "/"

/-- BaseOAuth2AuthProviderMixin.push_request_data_to_session:
session[oauth_request_data] = json.dumps(query_params or empty dict). -/
def push_request_data_to_session (session : Session) (query_params : ReqParams) :
    Session :=
  sinsert session "oauth_request_data"
    (dumps (if query_params.isEmpty then [] else query_params))

/-- BaseOAuth2AuthProviderMixin.pop_request_data_from_session: pops the
stored serialized parameters and parses them, returning the empty dict when
the key is missing (KeyError) or the value does not parse
(json.JSONDecodeError); both exceptions are swallowed by the except
clause. -/
def pop_request_data_from_session (session : Session) : ReqParams × Session :=
  let p := spop session "oauth_request_data"
  match p.1 with
  | none => ([], p.2)
  | some v =>
    match loads v with
    | none => ([], p.2)
    | some d => (d, p.2)

/-- BaseOAuth2AuthProviderMixin.get_oauth_session: builds the OAuth2Session
client; when the session holds an oauth_state it is popped and passed as the
state of the client, otherwise the client is built without a state. -/
def get_oauth_session (inst : AuthProviderModel) (session : Session) :
    OAuth2SessionM × Session :=
  let redirect_uri := get_callback_url inst
  if scontains session "oauth_state" then
    let p := spop session "oauth_state"
    ({ client_id := inst.client_id, redirect_uri := redirect_uri,
       scope := inst.scope, state := p.1 }, p.2)
  else
    ({ client_id := inst.client_id, redirect_uri := redirect_uri,
       scope := inst.scope, state := none }, session)

/-- Model of oauthlib prepare_request_uri: the authorization URL assembled
from the endpoint, client id, redirect URI, scope and state. -/
def mk_authorization_url (base client_id redirect_uri scope state : String) :
    String :=
  base ++ "?response_type=code&client_id=" ++ client_id ++ "&redirect_uri="
    ++ redirect_uri ++ "&scope=" ++ scope ++ "&state=" ++ state

/-- Model of requests_oauthlib OAuth2Session.authorization_url together with
new_state: when a state was supplied to the constructor it is reused,
otherwise a new random state is generated; the fresh argument is the value
the random generator would produce. -/
def oauth_authorization_url (oauth : OAuth2SessionM) (url : String)
    (fresh : String) : String × String :=
  let state := oauth.state.getD fresh
  (mk_authorization_url url oauth.client_id oauth.redirect_uri oauth.scope
    state, state)

/-- BaseOAuth2AuthProviderMixin.get_authorization_url: builds the client,
asks it for the authorization URL and state, stores the state under
oauth_state and the serialized query parameters under oauth_request_data,
and returns the URL.  No HTTP oracle is consumed: the function makes no
network call. -/
def get_authorization_url (inst : AuthProviderModel) (session : Session)
    (query_params : ReqParams) (fresh : String) : String × Session :=
  let p := get_oauth_session inst session
  let q := oauth_authorization_url p.1 inst.authorization_url fresh
  let s2 := sinsert p.2 "oauth_state" q.2
  let s3 := push_request_data_to_session s2 query_params
  (q.1, s3)

/-- The body of the try block of get_oauth_token_and_response: fetch the
token from the token endpoint, then GET the user-info URL and decode its
JSON; either step may raise. -/
def token_and_userinfo_body (env : HttpEnv) (inst : AuthProviderModel)
    (oauth : OAuth2SessionM) (code : String) : Except Exc (Token × JsonObj) :=
  match env.fetch_token inst.access_token_url code inst.secret
      oauth.state with
  | Except.error e => Except.error e
  | Except.ok token =>
    match env.get_json inst.user_info_url token with
    | Except.error e => Except.error e
    | Except.ok j => Except.ok (token, j)

/-- BaseOAuth2AuthProviderMixin.get_oauth_token_and_response: runs the body
and converts any exception into AuthFlowError() with no message (the
original exception is only logged). -/
def get_oauth_token_and_response (env : HttpEnv)
    (inst : AuthProviderModel) (code : String) (session : Session) :
    Except Exc (Token × JsonObj) × Session :=
  let p := get_oauth_session inst session
  match token_and_userinfo_body env inst p.1 code with
  | Except.ok r => (Except.ok r, p.2)
  | Except.error _ => (Except.error (Exc.authFlowError none), p.2)

/-- BaseOAuth2AuthProviderMixin.get_user_info_from_oauth_json_response:
pops the request data, derives the display name (the raw name value when its
stripped form is non-empty, else the email value) and assembles the
UserInfo; name.strip() raises AttributeError when the name value is null. -/
def get_user_info_from_oauth_json_response (data : JsonObj)
    (session : Session) : Except Exc (UserInfo × String) × Session :=
  let p := pop_request_data_from_session session
  let name0 := jgetD data "name" (JVal.str "")
  match pyStripJ name0 with
  | Except.error e => (Except.error e, p.2)
  | Except.ok stripped =>
    let name : Option String :=
      if stripped = "" then jgetStr data "email" else jvalToOpt name0
    (Except.ok
      ({ name := name, email := jgetStr data "email",
         workspace_invitation_token :=
           rdGet p.1 "workspace_invitation_token",
         language := rdGet p.1 "language" },
       (rdGet p.1 "original").getD ""), p.2)

/-- BaseOAuth2AuthProviderMixin.get_user_info: token exchange followed by
user-info extraction. -/
def get_user_info (env : HttpEnv) (inst : AuthProviderModel)
    (code : String) (session : Session) :
    Except Exc (UserInfo × String) × Session :=
  let r := get_oauth_token_and_response env inst code session
  match r.1 with
  | Except.error e => (Except.error e, r.2)
  | Except.ok tj => get_user_info_from_oauth_json_response tj.2 r.2

end BaseOAuth2

namespace GitHubProvider

/-- Builds the Authorization header value of the GitHub emails request:
token followed by token.get(access_token), where a missing key formats as
the Python None. -/
def authHeader (token : Token) : String :=
  "token " ++ (token.access_token.getD "None")

/-- GitHubAuthProviderType.get_email: requests the emails endpoint, raises
for an HTTP error status, and on a 200 response with a non-empty list picks
the first element of the primary-filtered list (an element passes the filter
when it is not a dict or its primary flag is truthy), falling back to the
first list element; a dict element yields its email field (empty string when
missing), a non-dict element is returned as is; otherwise the initial None
is returned. -/
def get_email (env : HttpEnv) (headers : String) :
    Except Exc (Option String) :=
  match env.get_emails headers with
  | Except.error e => Except.error e
  | Except.ok resp =>
    if 400 ≤ resp.status then
      Except.error (Exc.httpError "raise_for_status")
    else
      match resp.emails with
      | [] => Except.ok none
      | e0 :: _ =>
        if resp.status = 200 then
          let primary_emails :=
            resp.emails.filter (fun e => !(ghIsDict e) || ghPrimary e)
          let chosen := primary_emails.headD e0
          Except.ok (some (ghExtract chosen))
        else Except.ok none

/-- GitHubAuthProviderType.get_user_info: token exchange, then the extra
emails call whose result is written into the response dict under email (any
exception of that call becomes AuthFlowError() with no message), then the
shared user-info extraction. -/
def get_user_info (env : HttpEnv) (inst : AuthProviderModel) (code : String)
    (session : Session) : Except Exc (UserInfo × String) × Session :=
  let r := BaseOAuth2.get_oauth_token_and_response env inst code session
  match r.1 with
  | Except.error e => (Except.error e, r.2)
  | Except.ok tj =>
    match get_email env (authHeader tj.1) with
    | Except.error _ => (Except.error (Exc.authFlowError none), r.2)
    | Except.ok em =>
      let j2 := jinsert tj.2 "email" ((em.map JVal.str).getD JVal.null)
      BaseOAuth2.get_user_info_from_oauth_json_response j2 r.2

end GitHubProvider

/-- A JSON Web Key: key id and key material. -/
structure Jwk where
  kid : String
  material : String
deriving DecidableEq, Repr

/-- The parsed keys list of a JWKS document. -/
def Jwks : Type := List Jwk

instance : DecidableEq Jwks := by unfold Jwks; infer_instance

/-- The RSA verifying key produced by RSAAlgorithm.from_jwk. -/
structure RsaKey where
  jwk : Jwk
deriving DecidableEq, Repr

/-- RSAAlgorithm.from_jwk. -/
def from_jwk (jwk : Jwk) : RsaKey := { jwk := jwk }

/-- An id_token as far as this code inspects it without verification: the
kid of its unverified header. -/
structure IdToken where
  kid : String
deriving DecidableEq, Repr

/-- Modelled from the spec: the cache service of section 6
(baserow.core.cache.global_cache, not under src) offers get(key,
default_factory, ttl) and invalidate(key); get memoizes the factory result
under the key.  The state tracks the entry under the one cache key this code
uses, plus instrumentation: how many times the JWKS fetch ran and how many
invalidations happened. -/
structure CacheState where
  cached : Option Jwks
  fetchCount : Nat
  invalidations : Nat
deriving DecidableEq

/-- Modelled from the spec: global_cache.get with the JWKS fetch as default
factory.  A cache hit returns the entry without fetching; a miss runs the
fetch (the oracle indexed by how many fetches ran before), stores a
successful result and propagates a fetch exception.  The TTL argument of the
source only bounds entry lifetime and is not modelled. -/
def cache_get (fetchSeq : Nat → Except Exc Jwks) (st : CacheState) :
    Except Exc Jwks × CacheState :=
  match st.cached with
  | some v => (Except.ok v, st)
  | none =>
    match fetchSeq st.fetchCount with
    | Except.ok v =>
      (Except.ok v,
       { st with cached := some v, fetchCount := st.fetchCount + 1 })
    | Except.error e =>
      (Except.error e, { st with fetchCount := st.fetchCount + 1 })

/-- Modelled from the spec: global_cache.invalidate on the JWKS cache
key. -/
def cache_invalidate (st : CacheState) : CacheState :=
  { st with cached := none, invalidations := st.invalidations + 1 }

/-- The decoded well-known discovery document fields kept on the provider
record. -/
structure WellKnownUrls where
  authorization_url : JVal
  access_token_url : JVal
  user_info_url : JVal
  jwks_url : JVal
  issuer : JVal
deriving DecidableEq, Repr

/-- The oracles of the OpenID Connect specific outward calls: the JWKS
endpoint fetch (indexed by how many fetches ran before) and jwt.decode of an
id_token against a verifying key, audience and issuer, which yields the
verified claims or raises. -/
structure OidcEnv where
  fetchJwks : Nat → Except Exc Jwks
  decode : IdToken → RsaKey → String → String → Except Exc JsonObj

namespace OpenIdConnect

/-- OpenIdConnectAuthProviderTypeMixin.get_wellknown_urls: GET the
well-known document of the base URL and read the five endpoint fields; any
exception — transport or JSON failure of the fetch, or a KeyError from a
missing field — is caught and re-raised as InvalidProviderUrl. -/
def get_wellknown_urls (fetchWK : String → Except Exc JsonObj)
    (base_url : String) : Except Exc WellKnownUrls :=
  match fetchWK (base_url ++ "/.well-known/openid-configuration") with
  | Except.error _ => Except.error Exc.invalidProviderUrl
  | Except.ok j =>
    match jget j "authorization_endpoint", jget j "token_endpoint",
        jget j "userinfo_endpoint", jget j "jwks_uri", jget j "issuer" with
    | some a, some t, some u, some k, some i =>
      Except.ok { authorization_url := a, access_token_url := t,
                  user_info_url := u, jwks_url := k, issuer := i }
    | _, _, _, _, _ => Except.error Exc.invalidProviderUrl

/-- The values passed to OpenIdConnectAuthProviderTypeMixin.create; only
base_url is read by the verified logic, the rest is forwarded to the
persistence layer. -/
structure CreateValues where
  base_url : String
deriving DecidableEq, Repr

/-- The values passed to OpenIdConnectAuthProviderTypeMixin.update;
base_url = none or the empty string is falsy and skips discovery. -/
structure UpdateValues where
  base_url : Option String
deriving DecidableEq, Repr

/-- OpenIdConnectAuthProviderTypeMixin.create: discovery runs first; only
when it succeeds does super().create persist the values together with the
discovered URLS (the persistence layer is the abstract persist argument over
an abstract storage state). -/
def create {σ : Type} (fetchWK : String → Except Exc JsonObj)
    (persist : CreateValues → WellKnownUrls → σ → σ) (values : CreateValues)
    (st : σ) : Except Exc Unit × σ :=
  match get_wellknown_urls fetchWK values.base_url with
  | Except.error e => (Except.error e, st)
  | Except.ok urls => (Except.ok (), persist values urls st)

/-- OpenIdConnectAuthProviderTypeMixin.update: when the values carry a
truthy base_url, discovery runs first and only a success reaches the
persistence layer; otherwise the values are persisted without discovery. -/
def update {σ : Type} (fetchWK : String → Except Exc JsonObj)
    (persist : UpdateValues → WellKnownUrls → σ → σ)
    (persistPlain : UpdateValues → σ → σ) (values : UpdateValues)
    (st : σ) : Except Exc Unit × σ :=
  match values.base_url with
  | some bu =>
    if bu = "" then (Except.ok (), persistPlain values st)
    else
      match get_wellknown_urls fetchWK bu with
      | Except.error e => (Except.error e, st)
      | Except.ok urls => (Except.ok (), persist values urls st)
  | none => (Except.ok (), persistPlain values st)

/-- OpenIdConnectAuthProviderTypeMixin._get_verifying_key: read the JWKS
through the cache (a fetch failure raises AuthFlowError naming the JWKS
URL), look up the kid of the unverified id_token header; on a miss with
retry_on_fail, invalidate the cache entry and run once more without retry;
a second miss raises AuthFlowError naming the kid. -/
def get_verifying_key (fetchSeq : Nat → Except Exc Jwks)
    (jwks_url : String) (idt : IdToken) (retry_on_fail : Bool)
    (st : CacheState) : Except Exc RsaKey × CacheState :=
  let g := cache_get fetchSeq st
  match g.1 with
  | Except.error _ =>
    (Except.error (Exc.authFlowError
      (some ("Failed to call JWK endpoint with URL " ++ jwks_url))), g.2)
  | Except.ok jwks =>
    let kid := idt.kid
    match jwks.find? (fun jwk => jwk.kid == kid) with
    | some jwk => (Except.ok (from_jwk jwk), g.2)
    | none =>
      match retry_on_fail with
      | true =>
        get_verifying_key fetchSeq jwks_url idt false (cache_invalidate g.2)
      | false =>
        (Except.error (Exc.authFlowError
          (some ("Matching JWK not found for kid: " ++ kid))), g.2)
termination_by (cond retry_on_fail 1 0 : Nat)
decreasing_by simp

end OpenIdConnect

namespace OpenIdConnect

/-- The email and name extraction block shared verbatim by
get_user_info_from_user_info_endpoint and get_user_info_from_id_token:
email from the configured email attribute key; first name from the first
name key (empty default) stripped; last name likewise but only when the last
name key is truthy; display name is first and last joined by one space and
stripped, falling back to the email when empty.  A null attribute value
makes strip raise AttributeError. -/
def extract_email_and_name (email_key first_key last_key : String)
    (data : JsonObj) : Except Exc (Option String × Option String) :=
  let email := jgetStr data email_key
  match pyStripJ (jgetD data first_key (JVal.str "")) with
  | Except.error e => Except.error e
  | Except.ok first_name =>
    match
      (if last_key = "" then Except.ok ""
       else pyStripJ (jgetD data last_key (JVal.str ""))) with
    | Except.error e => Except.error e
    | Except.ok last_name =>
      let name := pyStrip (first_name ++ " " ++ last_name)
      Except.ok (email, if name = "" then email else some name)

/-- OpenIdConnectAuthProviderTypeMixin.get_user_info_from_user_info_endpoint
applied to the user-info JSON response. -/
def get_user_info_from_user_info_endpoint
    (inst : OpenIdConnectAuthProviderModel) (data : JsonObj) :
    Except Exc (Option String × Option String) :=
  extract_email_and_name inst.email_attr_key inst.first_name_attr_key
    inst.last_name_attr_key data

/-- OpenIdConnectAuthProviderTypeMixin.get_user_info_from_id_token: resolve
the verifying key for the kid of the id_token (with the single cache retry),
verify and decode the token (RS256, audience = client id, issuer =
configured issuer) through the decode oracle, and extract email and name
from the verified claims.  Decode exceptions propagate uncaught. -/
def get_user_info_from_id_token (oenv : OidcEnv)
    (inst : OpenIdConnectAuthProviderModel) (idt : IdToken)
    (cst : CacheState) :
    Except Exc (Option String × Option String) × CacheState :=
  let g := get_verifying_key oenv.fetchJwks inst.jwks_url idt true cst
  match g.1 with
  | Except.error e => (Except.error e, g.2)
  | Except.ok key =>
    match oenv.decode idt key inst.client_id inst.issuer with
    | Except.error e => (Except.error e, g.2)
    | Except.ok decoded =>
      (extract_email_and_name inst.email_attr_key inst.first_name_attr_key
        inst.last_name_attr_key decoded, g.2)

/-- The id_token entry of the token dict, as an IdToken whose unverified
header is inspected for the kid; the kid oracle stands for
jwt.get_unverified_header. -/
def idTokenOf (kidOf : String → String) (raw : String) : IdToken :=
  { kid := kidOf raw }

/-- OpenIdConnectAuthProviderTypeMixin.get_user_info: token exchange; then,
with use_id_token, a token dict without an id_token entry raises
AuthFlowError with the message Id token is missing, and otherwise the
id_token is verified and mined for email and name; without use_id_token the
user-info response is mined instead.  Finally the request data are popped
from the session and the UserInfo is assembled. -/
def get_user_info (env : HttpEnv) (oenv : OidcEnv) (kidOf : String → String)
    (inst : OpenIdConnectAuthProviderModel) (code : String)
    (session : Session) (cst : CacheState) :
    Except Exc (UserInfo × String) × Session × CacheState :=
  let r := BaseOAuth2.get_oauth_token_and_response env
    inst.toAuthProviderModel code session
  match r.1 with
  | Except.error e => (Except.error e, r.2, cst)
  | Except.ok tj =>
    let branch : Except Exc (Option String × Option String) × CacheState :=
      if inst.use_id_token then
        match tj.1.id_token with
        | none =>
          (Except.error (Exc.authFlowError (some "Id token is missing")), cst)
        | some raw =>
          get_user_info_from_id_token oenv inst (idTokenOf kidOf raw) cst
      else (get_user_info_from_user_info_endpoint inst tj.2, cst)
    match branch.1 with
    | Except.error e => (Except.error e, r.2, branch.2)
    | Except.ok en =>
      let p := BaseOAuth2.pop_request_data_from_session r.2
      (Except.ok
        ({ name := en.2, email := en.1,
           workspace_invitation_token :=
             rdGet p.1 "workspace_invitation_token",
           language := rdGet p.1 "language" },
         (rdGet p.1 "original").getD ""), p.2, branch.2)

end OpenIdConnect

/-- A concrete provider row used in closed instantiations. -/
def inst0 : AuthProviderModel :=
  { id := 1, client_id := "cid", secret := "sec",
    authorization_url := "https://provider/auth",
    access_token_url := "https://provider/token",
    user_info_url := "https://provider/user", scope := "openid" }

/-- A concrete OpenID Connect provider row with use_id_token enabled. -/
def oidcInst0 : OpenIdConnectAuthProviderModel :=
  { toAuthProviderModel := inst0, use_id_token := true,
    email_attr_key := "email", first_name_attr_key := "given_name",
    last_name_attr_key := "family_name",
    jwks_url := "https://provider/jwks", issuer := "https://provider" }

/-- A token dict with an access token but no id_token entry. -/
def token0 : Token := { access_token := some "tok", id_token := none }

/-- A concrete user-info JSON response. -/
def json0 : JsonObj :=
  [("name", JVal.str "Ada"), ("email", JVal.str "ada@example.com")]

/-- Concrete HTTP oracles: token exchange and user-info call succeed, the
GitHub emails endpoint answers 200 with an empty list. -/
def env0 : HttpEnv :=
  { fetch_token := fun _ _ _ _ => Except.ok token0,
    get_json := fun _ _ => Except.ok json0,
    get_emails := fun _ => Except.ok { status := 200, emails := [] } }

/-- A GitHub emails list whose first element is not primary and whose first
primary-flagged element is the second one. -/
def ghEmails0 : List GhEmail :=
  [GhEmail.obj (some "first@example.com") false,
   GhEmail.obj (some "primary@example.com") true,
   GhEmail.obj (some "other@example.com") true]

/-- Concrete HTTP oracles whose emails endpoint returns ghEmails0. -/
def env1 : HttpEnv :=
  { fetch_token := fun _ _ _ _ => Except.ok token0,
    get_json := fun _ _ => Except.ok json0,
    get_emails := fun _ => Except.ok { status := 200, emails := ghEmails0 } }

/-- A cache state holding a JWKS with the single kid k1. -/
def cst0 : CacheState :=
  { cached := some [{ kid := "k1", material := "m1" }], fetchCount := 0,
    invalidations := 0 }

/-- A JWKS fetch oracle that always returns the single kid k2. -/
def fetchSeq0 : Nat → Except Exc Jwks :=
  fun _ => Except.ok [{ kid := "k2", material := "m2" }]

/-- Concrete OIDC oracles: the JWKS endpoint serves kid k2 and decoding
always yields json0. -/
def oenv0 : OidcEnv :=
  { fetchJwks := fetchSeq0,
    decode := fun _ _ _ _ => Except.ok json0 }

/-- A well-known fetch oracle that fails with a transport error. -/
def fetchWKerr : String → Except Exc JsonObj :=
  fun _ => Except.error (Exc.httpError "timeout")


section Helpers

variable {β : Type}

theorem find_filter_ne (l : List (String × β)) (k k' : String) (h : k' ≠ k) :
    List.find? (fun kv => kv.1 == k') (l.filter (fun kv => !(kv.1 == k)))
      = List.find? (fun kv => kv.1 == k') l := by
  induction l with
  | nil => rfl
  | cons a t ih =>
    by_cases hk : a.1 = k
    · have h1 : (a.1 == k) = true := by simp [hk]
      have h2 : (a.1 == k') = false := by
        simp only [beq_eq_false_iff_ne, ne_eq, hk]
        exact fun e => h e.symm
      simp [List.filter_cons, h1, List.find?_cons, h2, ih]
    · have h1 : (a.1 == k) = false := by simp [hk]
      by_cases hk' : a.1 = k'
      · have h2 : (a.1 == k') = true := by simp [hk']
        simp [List.filter_cons, h1, List.find?_cons, h2]
      · have h2 : (a.1 == k') = false := by simp [hk']
        simp [List.filter_cons, h1, List.find?_cons, h2, ih]

theorem sget_sinsert_self (s : Session) (k v : String) :
    sget (sinsert s k v) k = some v := by
  show (List.find? _ ((k, v) :: sremove s k)).map _ = some v
  rw [List.find?_cons_of_pos _ (by simp)]
  rfl

theorem sget_sinsert_ne (s : Session) (k k' v : String) (h : k' ≠ k) :
    sget (sinsert s k v) k' = sget s k' := by
  show (List.find? _ ((k, v) :: sremove s k)).map _ = _
  rw [List.find?_cons_of_neg _
    (by simp only [beq_iff_eq]; exact fun e => h e.symm)]
  exact congrArg (Option.map _) (find_filter_ne s k k' h)

theorem sget_sremove_ne (s : Session) (k k' : String) (h : k' ≠ k) :
    sget (sremove s k) k' = sget s k' :=
  congrArg (Option.map _) (find_filter_ne s k k' h)

theorem dumps_or_empty (qp : ReqParams) :
    dumps (if qp.isEmpty then [] else qp) = dumps qp := by
  cases qp <;> rfl

theorem str_data_append (a b : String) : (a ++ b).data = a.data ++ b.data := by
  cases a; cases b; rfl

theorem str_append_empty (s : String) : s ++ "" = s := by
  cases s with
  | mk l =>
    show String.mk (l ++ []) = String.mk l
    rw [List.append_nil]

theorem dropWhile_head_not (l : List Char) (a : Char)
    (h : (l.dropWhile isPySpace).head? = some a) : isPySpace a = false := by
  induction l with
  | nil => simp [List.dropWhile] at h
  | cons c t ih =>
    rw [List.dropWhile_cons] at h
    by_cases hc : isPySpace c
    · rw [if_pos hc] at h
      exact ih h
    · rw [if_neg hc] at h
      simp only [List.head?_cons, Option.some.injEq] at h
      subst h
      exact Bool.eq_false_iff.mpr hc

theorem dropWhile_of_head_not (l : List Char) (b : Char)
    (hb : l.head? = some b) (h : isPySpace b = false) :
    l.dropWhile isPySpace = l := by
  cases l with
  | nil => rfl
  | cons c t =>
    simp only [List.head?_cons, Option.some.injEq] at hb
    subst hb
    rw [List.dropWhile_cons, if_neg (by simp [h])]

theorem dropTrailing_is_prefix (m : List Char) :
    m = dropTrailing m ++ (m.reverse.takeWhile isPySpace).reverse := by
  conv_lhs =>
    rw [← m.reverse_reverse,
      ← List.takeWhile_append_dropWhile (p := isPySpace) (l := m.reverse),
      List.reverse_append]
  rfl

theorem pyStrip_head_not (cs : List Char) (a : Char)
    (h : (pyStripList cs).head? = some a) : isPySpace a = false := by
  unfold pyStripList at h
  have hpre := dropTrailing_is_prefix (cs.dropWhile isPySpace)
  apply dropWhile_head_not cs a
  cases hx : dropTrailing (cs.dropWhile isPySpace) with
  | nil => rw [hx] at h; simp at h
  | cons b t =>
    rw [hx] at h
    simp only [List.head?_cons, Option.some.injEq] at h
    subst h
    rw [hpre, hx]
    rfl

theorem pyStrip_last_not (cs : List Char) (a : Char)
    (h : (pyStripList cs).reverse.head? = some a) : isPySpace a = false := by
  unfold pyStripList dropTrailing at h
  rw [List.reverse_reverse] at h
  exact dropWhile_head_not _ a h

theorem strip_append_space (cs : List Char) :
    pyStripList (pyStripList cs ++ [' ']) = pyStripList cs := by
  cases hx : pyStripList cs with
  | nil => decide
  | cons a t =>
    have ha : isPySpace a = false := pyStrip_head_not cs a (by rw [hx]; rfl)
    have step1 :
        ((a :: t) ++ [' ']).dropWhile isPySpace = (a :: t) ++ [' '] := by
      rw [List.cons_append, List.dropWhile_cons, if_neg (by simp [ha])]
    unfold pyStripList
    rw [step1]
    unfold dropTrailing
    rw [List.reverse_append]
    show ((' ' :: (a :: t).reverse).dropWhile isPySpace).reverse = _
    rw [List.dropWhile_cons, if_pos (by decide)]
    have hrev : ((a :: t).reverse).dropWhile isPySpace = (a :: t).reverse := by
      obtain ⟨b, hb'⟩ : ∃ b, ((a :: t).reverse).head? = some b := by
        cases hr : (a :: t).reverse with
        | nil => exact absurd hr (by simp)
        | cons b r => exact ⟨b, rfl⟩
      have hb : isPySpace b = false := by
        apply pyStrip_last_not cs b
        rw [hx]
        exact hb'
      exact dropWhile_of_head_not _ b hb' hb
    rw [hrev, List.reverse_reverse]

theorem pyStrip_strip_space (s : String) :
    pyStrip (pyStrip s ++ " ") = pyStrip s := by
  show String.mk (pyStripList ((pyStrip s ++ " ").data)) = pyStrip s
  rw [str_data_append]
  show String.mk (pyStripList (pyStripList s.data ++ [' '])) = pyStrip s
  rw [strip_append_space]
  rfl

end Helpers

/-- Claim C7: every exception raised inside the token-exchange and user-info
HTTP step is caught by get_oauth_token_and_response and re-raised as an
AuthFlowError carrying no message, hence no provider exception detail; no
upstream exception type escapes: the result is either the successful pair or
exactly that bare AuthFlowError. -/
theorem claim_C7_token_errors_wrapped (env : HttpEnv)
    (inst : AuthProviderModel) (code : String) (session : Session) :
    (∀ e, BaseOAuth2.token_and_userinfo_body env inst
        (BaseOAuth2.get_oauth_session inst session).1 code = Except.error e →
      (BaseOAuth2.get_oauth_token_and_response env inst code session).1
        = Except.error (Exc.authFlowError none))
    ∧ ((BaseOAuth2.get_oauth_token_and_response env inst code session).1
          = Except.error (Exc.authFlowError none)
        ∨ ∃ t j, (BaseOAuth2.get_oauth_token_and_response env inst code
          session).1 = Except.ok (t, j)) := by
  cases hb : BaseOAuth2.token_and_userinfo_body env inst
      (BaseOAuth2.get_oauth_session inst session).1 code with
  | error e =>
    constructor
    · intro e2 _
      simp [BaseOAuth2.get_oauth_token_and_response, hb]
    · left
      simp [BaseOAuth2.get_oauth_token_and_response, hb]
  | ok r =>
    constructor
    · intro e2 he
      exact absurd he (by simp)
    · right
      exact ⟨r.1, r.2, by simp [BaseOAuth2.get_oauth_token_and_response, hb]⟩

/-- Closed instantiation of claim C7 at concrete oracles. -/
theorem claim_C7_witness :
    (∀ e, BaseOAuth2.token_and_userinfo_body env0 inst0
        (BaseOAuth2.get_oauth_session inst0 []).1 "code" = Except.error e →
      (BaseOAuth2.get_oauth_token_and_response env0 inst0 "code" []).1
        = Except.error (Exc.authFlowError none))
    ∧ ((BaseOAuth2.get_oauth_token_and_response env0 inst0 "code" []).1
          = Except.error (Exc.authFlowError none)
        ∨ ∃ t j, (BaseOAuth2.get_oauth_token_and_response env0 inst0 "code"
          []).1 = Except.ok (t, j)) :=
  claim_C7_token_errors_wrapped env0 inst0 "code" []

/-- Claim C5: with use_id_token set, a token dict without an id_token entry
makes the OpenID Connect get_user_info fail with AuthFlowError whose message
is Id token is missing; no UserInfo is produced. -/
theorem claim_C5_missing_id_token_fails (env : HttpEnv) (oenv : OidcEnv)
    (kidOf : String → String) (inst : OpenIdConnectAuthProviderModel)
    (code : String) (session : Session) (cst : CacheState)
    (token : Token) (j : JsonObj)
    (huse : inst.use_id_token = true)
    (hok : (BaseOAuth2.get_oauth_token_and_response env
        inst.toAuthProviderModel code session).1 = Except.ok (token, j))
    (hmiss : token.id_token = none) :
    (OpenIdConnect.get_user_info env oenv kidOf inst code session cst).1
      = Except.error (Exc.authFlowError (some "Id token is missing")) := by
  simp [OpenIdConnect.get_user_info, hok, huse, hmiss]

/-- Closed instantiation of claim C5 at concrete oracles. -/
theorem claim_C5_witness :
    (OpenIdConnect.get_user_info env0 oenv0 (fun _ => "k2") oidcInst0 "code"
        [] cst0).1
      = Except.error (Exc.authFlowError (some "Id token is missing")) :=
  claim_C5_missing_id_token_fails env0 oenv0 (fun _ => "k2") oidcInst0 "code"
    [] cst0 token0 json0 rfl rfl rfl

/-- Claim C9: pop_request_data_from_session is total and never raises: when
the oauth_request_data key is missing or its value does not parse as JSON it
returns the empty dict (with the key removed), so a UserInfo assembled
downstream carries none for workspace_invitation_token and language and the
original URL defaults to the empty string. -/
theorem claim_C9_pop_request_data_total (session : Session)
    (h : sget session "oauth_request_data" = none
      ∨ ∃ v, sget session "oauth_request_data" = some v ∧ loads v = none) :
    BaseOAuth2.pop_request_data_from_session session
        = ([], sremove session "oauth_request_data")
    ∧ ∀ data r s2,
        BaseOAuth2.get_user_info_from_oauth_json_response data session
          = (Except.ok r, s2) →
        r.1.workspace_invitation_token = none ∧ r.1.language = none
          ∧ r.2 = "" := by
  have hpop : BaseOAuth2.pop_request_data_from_session session
      = ([], sremove session "oauth_request_data") := by
    rcases h with h | ⟨v, hv, hl⟩
    · simp [BaseOAuth2.pop_request_data_from_session, spop, h]
    · simp [BaseOAuth2.pop_request_data_from_session, spop, hv, hl]
  refine ⟨hpop, ?_⟩
  intro data r s2 hr
  cases hs : pyStripJ (jgetD data "name" (JVal.str "")) with
  | error e =>
    simp [BaseOAuth2.get_user_info_from_oauth_json_response, hpop, hs] at hr
  | ok stripped =>
    simp only [BaseOAuth2.get_user_info_from_oauth_json_response, hpop, hs,
      Prod.mk.injEq, Except.ok.injEq] at hr
    obtain ⟨h1, _⟩ := hr
    rw [← h1]
    exact ⟨rfl, rfl, rfl⟩

/-- A session whose stored request data is not valid JSON. -/
def sessionC9 : Session := [("oauth_request_data", "notjson")]

/-- Closed instantiation of claim C9 at a session holding unparsable request
data. -/
theorem claim_C9_witness :
    BaseOAuth2.pop_request_data_from_session sessionC9
        = ([], sremove sessionC9 "oauth_request_data")
    ∧ ∀ data r s2,
        BaseOAuth2.get_user_info_from_oauth_json_response data sessionC9
          = (Except.ok r, s2) →
        r.1.workspace_invitation_token = none ∧ r.1.language = none
          ∧ r.2 = "" :=
  claim_C9_pop_request_data_total sessionC9 (Or.inr ⟨"notjson", rfl, rfl⟩)

theorem cache_get_fetchCount (fetchSeq : Nat → Except Exc Jwks)
    (st : CacheState) :
    (cache_get fetchSeq st).2.fetchCount ≤ st.fetchCount + 1 := by
  unfold cache_get
  cases h : st.cached with
  | some v => exact Nat.le_succ st.fetchCount
  | none =>
    cases hf : fetchSeq st.fetchCount with
    | ok v => exact Nat.le.refl
    | error e => exact Nat.le.refl

theorem gvk_false_fetchCount (fetchSeq : Nat → Except Exc Jwks)
    (jwks_url : String) (idt : IdToken) (st : CacheState) :
    (OpenIdConnect.get_verifying_key fetchSeq jwks_url idt false
      st).2.fetchCount ≤ st.fetchCount + 1 := by
  rw [OpenIdConnect.get_verifying_key.eq_def]
  cases hc2 : st.cached with
  | some jwks2 =>
    have hcg : cache_get fetchSeq st = (Except.ok jwks2, st) := by
      simp [cache_get, hc2]
    simp only [hcg]
    cases hfind2 : jwks2.find? (fun j => j.kid == idt.kid) with
    | some jwk =>
      simp only [hfind2]
      exact Nat.le_succ _
    | none =>
      simp only [hfind2]
      exact Nat.le_succ _
  | none =>
    cases hf : fetchSeq st.fetchCount with
    | error e =>
      have hcg : cache_get fetchSeq st
          = (Except.error e, { st with fetchCount := st.fetchCount + 1 }) := by
        simp [cache_get, hc2, hf]
      simp only [hcg]
      exact Nat.le.refl
    | ok jwks2 =>
      have hcg : cache_get fetchSeq st
          = (Except.ok jwks2,
             { st with cached := some jwks2, fetchCount := st.fetchCount + 1 }) := by
        simp [cache_get, hc2, hf]
      simp only [hcg]
      cases hfind2 : jwks2.find? (fun j => j.kid == idt.kid) with
      | some jwk =>
        simp only [hfind2]
        exact Nat.le.refl
      | none =>
        simp only [hfind2]
        exact Nat.le.refl

theorem gvk_true_fetchCount (fetchSeq : Nat → Except Exc Jwks)
    (jwks_url : String) (idt : IdToken) (st : CacheState) :
    (OpenIdConnect.get_verifying_key fetchSeq jwks_url idt true
      st).2.fetchCount ≤ st.fetchCount + 2 := by
  rw [OpenIdConnect.get_verifying_key.eq_def]
  cases hc2 : st.cached with
  | some jwks2 =>
    have hcg : cache_get fetchSeq st = (Except.ok jwks2, st) := by
      simp [cache_get, hc2]
    simp only [hcg]
    cases hfind2 : jwks2.find? (fun j => j.kid == idt.kid) with
    | some jwk =>
      simp only [hfind2]
      exact Nat.le_trans (Nat.le_succ _) (Nat.le_succ _)
    | none =>
      simp only [hfind2]
      exact Nat.le_trans
        (gvk_false_fetchCount fetchSeq jwks_url idt (cache_invalidate st))
        (Nat.le_succ _)
  | none =>
    cases hf : fetchSeq st.fetchCount with
    | error e =>
      have hcg : cache_get fetchSeq st
          = (Except.error e, { st with fetchCount := st.fetchCount + 1 }) := by
        simp [cache_get, hc2, hf]
      simp only [hcg]
      exact Nat.le_succ _
    | ok jwks2 =>
      have hcg : cache_get fetchSeq st
          = (Except.ok jwks2,
             { st with cached := some jwks2, fetchCount := st.fetchCount + 1 }) := by
        simp [cache_get, hc2, hf]
      simp only [hcg]
      cases hfind2 : jwks2.find? (fun j => j.kid == idt.kid) with
      | some jwk =>
        simp only [hfind2]
        exact Nat.le_succ _
      | none =>
        simp only [hfind2]
        exact gvk_false_fetchCount fetchSeq jwks_url idt
          (cache_invalidate
            { st with cached := some jwks2, fetchCount := st.fetchCount + 1 })

/-- Claim C2: when the cached JWKS lacks the kid of the id_token,
_get_verifying_key performs exactly one cache invalidation and exactly one
refetch; if the kid is in the refetched set the first matching key is
returned, and if it is still absent it raises AuthFlowError whose message
names the missing kid; over any starting state it never fetches more than
twice. -/
theorem claim_C2_jwks_invalidate_and_retry_once
    (fetchSeq : Nat → Except Exc Jwks) (jwks_url : String) (idt : IdToken)
    (st : CacheState) (jwks0 : Jwks)
    (hc : st.cached = some jwks0)
    (hmiss : jwks0.find? (fun jwk => jwk.kid == idt.kid) = none) :
    ((OpenIdConnect.get_verifying_key fetchSeq jwks_url idt true
        st).2.invalidations = st.invalidations + 1)
    ∧ ((OpenIdConnect.get_verifying_key fetchSeq jwks_url idt true
        st).2.fetchCount = st.fetchCount + 1)
    ∧ (∀ jwks1, fetchSeq st.fetchCount = Except.ok jwks1 →
        (∀ jwk, jwks1.find? (fun j => j.kid == idt.kid) = some jwk →
          (OpenIdConnect.get_verifying_key fetchSeq jwks_url idt true st).1
            = Except.ok (from_jwk jwk))
        ∧ (jwks1.find? (fun j => j.kid == idt.kid) = none →
          (OpenIdConnect.get_verifying_key fetchSeq jwks_url idt true st).1
            = Except.error (Exc.authFlowError
                (some ("Matching JWK not found for kid: " ++ idt.kid)))))
    ∧ (∀ st2, (OpenIdConnect.get_verifying_key fetchSeq jwks_url idt true
        st2).2.fetchCount ≤ st2.fetchCount + 2) := by
  have false_run : ∀ (c : CacheState), c.cached = none →
      OpenIdConnect.get_verifying_key fetchSeq jwks_url idt false c
        = match fetchSeq c.fetchCount with
          | Except.error _ =>
            (Except.error (Exc.authFlowError
              (some ("Failed to call JWK endpoint with URL " ++ jwks_url))),
             { c with fetchCount := c.fetchCount + 1 })
          | Except.ok jwks1 =>
            match jwks1.find? (fun j => j.kid == idt.kid) with
            | some jwk =>
              (Except.ok (from_jwk jwk),
               { c with cached := some jwks1, fetchCount := c.fetchCount + 1 })
            | none =>
              (Except.error (Exc.authFlowError
                (some ("Matching JWK not found for kid: " ++ idt.kid))),
               { c with cached := some jwks1, fetchCount := c.fetchCount + 1 }) := by
    intro c hcn
    rw [OpenIdConnect.get_verifying_key.eq_def]
    cases hf : fetchSeq c.fetchCount with
    | ok jwks1 =>
      cases hfind : jwks1.find? (fun j => j.kid == idt.kid) with
      | some jwk => simp [cache_get, hcn, hf, hfind]
      | none => simp [cache_get, hcn, hf, hfind]
    | error e => simp [cache_get, hcn, hf]
  have key : OpenIdConnect.get_verifying_key fetchSeq jwks_url idt true st
      = OpenIdConnect.get_verifying_key fetchSeq jwks_url idt false
          (cache_invalidate st) := by
    rw [OpenIdConnect.get_verifying_key.eq_def]
    simp [cache_get, hc, hmiss]
  refine ⟨?_, ?_, ?_, fun st2 =>
    gvk_true_fetchCount fetchSeq jwks_url idt st2⟩
  · rw [key, false_run _ rfl]
    cases hf : fetchSeq (cache_invalidate st).fetchCount with
    | ok jwks1 =>
      cases hfind : jwks1.find? (fun j => j.kid == idt.kid) with
      | some jwk => simp [hfind, cache_invalidate]
      | none => simp [hfind, cache_invalidate]
    | error e => simp [cache_invalidate]
  · rw [key, false_run _ rfl]
    cases hf : fetchSeq (cache_invalidate st).fetchCount with
    | ok jwks1 =>
      cases hfind : jwks1.find? (fun j => j.kid == idt.kid) with
      | some jwk => simp [hfind, cache_invalidate]
      | none => simp [hfind, cache_invalidate]
    | error e => simp [cache_invalidate]
  · intro jwks1 hf
    have hf2 : fetchSeq (cache_invalidate st).fetchCount
        = Except.ok jwks1 := hf
    constructor
    · intro jwk hfind
      rw [key, false_run _ rfl]
      simp [hf2, hfind]
    · intro hfind
      rw [key, false_run _ rfl]
      simp [hf2, hfind]

/-- The id_token kid used in closed instantiations: absent from the cached
JWKS of cst0 and present in the set served by fetchSeq0. -/
def idt0 : IdToken := { kid := "k2" }

/-- Closed instantiation of claim C2: with kid k2 absent from the cached
set, one invalidation and one refetch happen and the refetched key for k2 is
returned. -/
theorem claim_C2_witness :
    ((OpenIdConnect.get_verifying_key fetchSeq0 "https://provider/jwks" idt0
        true cst0).2.invalidations = cst0.invalidations + 1)
    ∧ ((OpenIdConnect.get_verifying_key fetchSeq0 "https://provider/jwks"
        idt0 true cst0).2.fetchCount = cst0.fetchCount + 1)
    ∧ (∀ jwks1, fetchSeq0 cst0.fetchCount = Except.ok jwks1 →
        (∀ jwk, jwks1.find? (fun j => j.kid == idt0.kid) = some jwk →
          (OpenIdConnect.get_verifying_key fetchSeq0 "https://provider/jwks"
            idt0 true cst0).1 = Except.ok (from_jwk jwk))
        ∧ (jwks1.find? (fun j => j.kid == idt0.kid) = none →
          (OpenIdConnect.get_verifying_key fetchSeq0 "https://provider/jwks"
            idt0 true cst0).1
            = Except.error (Exc.authFlowError
                (some ("Matching JWK not found for kid: " ++ idt0.kid)))))
    ∧ (∀ st2, (OpenIdConnect.get_verifying_key fetchSeq0
        "https://provider/jwks" idt0 true st2).2.fetchCount
          ≤ st2.fetchCount + 2) :=
  claim_C2_jwks_invalidate_and_retry_once fetchSeq0 "https://provider/jwks"
    idt0 cst0 [{ kid := "k1", material := "m1" }] rfl rfl

theorem jget_jinsert_self (data : JsonObj) (k : String) (v : JVal) :
    jget (jinsert data k v) k = some v := by
  show (List.find? _ ((k, v) :: _)).map _ = some v
  rw [List.find?_cons_of_pos _ (by simp)]
  rfl

theorem jget_jinsert_ne (data : JsonObj) (k k' : String) (v : JVal)
    (h : k' ≠ k) : jget (jinsert data k v) k' = jget data k' := by
  show (List.find? _ ((k, v) :: _)).map _ = _
  rw [List.find?_cons_of_neg _
    (by simp only [beq_iff_eq]; exact fun e => h e.symm)]
  exact congrArg (Option.map _) (find_filter_ne data k k' h)

theorem find_eq_head_filter {α : Type} (p : α → Bool) (l : List α) :
    l.find? p = (l.filter p).head? := by
  induction l with
  | nil => rfl
  | cons a t ih =>
    by_cases h : p a
    · simp [List.find?_cons, List.filter_cons, h]
    · simp only [List.find?_cons, List.filter_cons, h]
      simp only [Bool.false_eq_true, if_false, ite_false]
      exact ih

/-- Claim C3: on a non-empty GitHub emails response (status 200) whose
elements are all dict entries and which contains a primary-flagged entry,
get_email returns the email of the first primary-flagged entry, not that of
the first list entry, and the UserInfo produced by the GitHub get_user_info
carries exactly that email. -/
theorem claim_C3_github_prefers_primary_email (env : HttpEnv)
    (inst : AuthProviderModel) (code : String) (session : Session)
    (token : Token) (j : JsonObj) (emails : List GhEmail) (p : GhEmail)
    (nm : String)
    (htok : (BaseOAuth2.get_oauth_token_and_response env inst code
        session).1 = Except.ok (token, j))
    (hem : env.get_emails (GitHubProvider.authHeader token)
        = Except.ok { status := 200, emails := emails })
    (hne : emails ≠ [])
    (hdict : ∀ e ∈ emails, ghIsDict e = true)
    (hp : emails.find? ghPrimary = some p)
    (hname : jgetD j "name" (JVal.str "") = JVal.str nm) :
    GitHubProvider.get_email env (GitHubProvider.authHeader token)
        = Except.ok (some (ghExtract p))
    ∧ ∃ ui orig s2,
        GitHubProvider.get_user_info env inst code session
          = (Except.ok (ui, orig), s2) ∧ ui.email = some (ghExtract p) := by
  have hfilter : emails.filter (fun e => !(ghIsDict e) || ghPrimary e)
      = emails.filter ghPrimary := by
    apply List.filter_congr
    intro e he
    rw [hdict e he]
    rfl
  have hge : GitHubProvider.get_email env (GitHubProvider.authHeader token)
      = Except.ok (some (ghExtract p)) := by
    unfold GitHubProvider.get_email
    rw [hem]
    cases emails with
    | nil => exact absurd rfl hne
    | cons e0 rest =>
      simp only [List.headD_eq_head?_getD, hfilter, ← find_eq_head_filter,
        hp]
      norm_num
  refine ⟨hge, ?_⟩
  have hj2 : ∀ v : JVal,
      jgetD (jinsert j "email" v) "name" (JVal.str "") = JVal.str nm := by
    intro v
    unfold jgetD
    rw [jget_jinsert_ne j "email" "name" v (by decide)]
    exact hname
  unfold GitHubProvider.get_user_info
  simp only [htok, hge]
  unfold BaseOAuth2.get_user_info_from_oauth_json_response
  simp only [Option.map_some, Option.getD_some, hj2, pyStripJ]
  by_cases hst : pyStrip nm = ""
  · simp only [hst, if_pos rfl]
    refine ⟨_, _, _, rfl, ?_⟩
    show jgetStr (jinsert j "email" (JVal.str (ghExtract p))) "email"
        = some (ghExtract p)
    unfold jgetStr
    rw [jget_jinsert_self]
    rfl
  · simp only [if_neg hst]
    refine ⟨_, _, _, rfl, ?_⟩
    show jgetStr (jinsert j "email" (JVal.str (ghExtract p))) "email"
        = some (ghExtract p)
    unfold jgetStr
    rw [jget_jinsert_self]
    rfl

/-- Closed instantiation of claim C3: among three dict entries whose second
one is the first primary-flagged, the resolved email is the second entry,
not the first. -/
theorem claim_C3_witness :
    GitHubProvider.get_email env1 (GitHubProvider.authHeader token0)
        = Except.ok (some "primary@example.com")
    ∧ ∃ ui orig s2,
        GitHubProvider.get_user_info env1 inst0 "code" []
          = (Except.ok (ui, orig), s2)
          ∧ ui.email = some "primary@example.com" :=
  claim_C3_github_prefers_primary_email env1 inst0 "code" [] token0 json0
    ghEmails0 (GhEmail.obj (some "primary@example.com") true) "Ada" rfl rfl
    (by decide) (by decide) (by decide) rfl

/-- Claim C10: when the GitHub emails endpoint answers 200 with an empty
list, get_email returns none rather than raising, and the GitHub
get_user_info completes with a UserInfo whose email is none instead of
failing with AuthFlowError. -/
theorem claim_C10_github_empty_emails_ok (env : HttpEnv)
    (inst : AuthProviderModel) (code : String) (session : Session)
    (token : Token) (j : JsonObj) (nm : String)
    (htok : (BaseOAuth2.get_oauth_token_and_response env inst code
        session).1 = Except.ok (token, j))
    (hem : env.get_emails (GitHubProvider.authHeader token)
        = Except.ok { status := 200, emails := [] })
    (hname : jgetD j "name" (JVal.str "") = JVal.str nm) :
    GitHubProvider.get_email env (GitHubProvider.authHeader token)
        = Except.ok none
    ∧ ∃ ui orig s2,
        GitHubProvider.get_user_info env inst code session
          = (Except.ok (ui, orig), s2) ∧ ui.email = none := by
  have hge : GitHubProvider.get_email env (GitHubProvider.authHeader token)
      = Except.ok none := by
    unfold GitHubProvider.get_email
    rw [hem]
    rfl
  have hj2 : jgetD (jinsert j "email" JVal.null) "name" (JVal.str "")
      = JVal.str nm := by
    unfold jgetD
    rw [jget_jinsert_ne j "email" "name" JVal.null (by decide)]
    exact hname
  refine ⟨hge, ?_⟩
  unfold GitHubProvider.get_user_info
  simp only [htok, hge, Option.map_none', Option.getD_none]
  unfold BaseOAuth2.get_user_info_from_oauth_json_response
  simp only [hj2, pyStripJ]
  have hemail : jgetStr (jinsert j "email" JVal.null) "email" = none := by
    unfold jgetStr
    rw [jget_jinsert_self]
    rfl
  exact ⟨_, _, _, rfl, hemail⟩

/-- Closed instantiation of claim C10 with an empty emails response. -/
theorem claim_C10_witness :
    GitHubProvider.get_email env0 (GitHubProvider.authHeader token0)
        = Except.ok none
    ∧ ∃ ui orig s2,
        GitHubProvider.get_user_info env0 inst0 "code" []
          = (Except.ok (ui, orig), s2) ∧ ui.email = none :=
  claim_C10_github_empty_emails_ok env0 inst0 "code" [] token0 json0 "Ada"
    rfl rfl rfl

/-- Claim C4: for OIDC claim sets (user-info endpoint or verified id_token),
the synthesized display name is the stripped first and last name joined by
one space and stripped; when both strip to empty the name falls back to the
extracted email, and when only the last name is empty the name is the
trimmed first name.  The id_token path extracts email and name from the
decoded claims exactly as the user-info path does. -/
theorem claim_C4_display_name_synthesis
    (inst : OpenIdConnectAuthProviderModel) (data : JsonObj)
    (f0 l0 : String)
    (hf : jgetD data inst.first_name_attr_key (JVal.str "") = JVal.str f0)
    (hl : (inst.last_name_attr_key = "" ∧ l0 = "")
      ∨ (inst.last_name_attr_key ≠ ""
        ∧ jgetD data inst.last_name_attr_key (JVal.str "")
            = JVal.str l0)) :
    (OpenIdConnect.get_user_info_from_user_info_endpoint inst data
        = Except.ok (jgetStr data inst.email_attr_key,
            if pyStrip (pyStrip f0 ++ " " ++ pyStrip l0) = ""
            then jgetStr data inst.email_attr_key
            else some (pyStrip (pyStrip f0 ++ " " ++ pyStrip l0))))
    ∧ (pyStrip f0 = "" → pyStrip l0 = "" →
        OpenIdConnect.get_user_info_from_user_info_endpoint inst data
          = Except.ok (jgetStr data inst.email_attr_key,
              jgetStr data inst.email_attr_key))
    ∧ (pyStrip l0 = "" → pyStrip f0 ≠ "" →
        OpenIdConnect.get_user_info_from_user_info_endpoint inst data
          = Except.ok (jgetStr data inst.email_attr_key,
              some (pyStrip f0)))
    ∧ (∀ oenv idt cst key,
        (OpenIdConnect.get_verifying_key oenv.fetchJwks inst.jwks_url idt
            true cst).1 = Except.ok key →
        oenv.decode idt key inst.client_id inst.issuer = Except.ok data →
        (OpenIdConnect.get_user_info_from_id_token oenv inst idt cst).1
          = OpenIdConnect.get_user_info_from_user_info_endpoint inst data)
    := by
  have hstrip0 : pyStrip "" = "" := rfl
  have hmain : OpenIdConnect.get_user_info_from_user_info_endpoint inst data
      = Except.ok (jgetStr data inst.email_attr_key,
          if pyStrip (pyStrip f0 ++ " " ++ pyStrip l0) = ""
          then jgetStr data inst.email_attr_key
          else some (pyStrip (pyStrip f0 ++ " " ++ pyStrip l0))) := by
    unfold OpenIdConnect.get_user_info_from_user_info_endpoint
      OpenIdConnect.extract_email_and_name
    rcases hl with ⟨hk, hl0⟩ | ⟨hk, hlv⟩
    · simp only [hf, pyStripJ, hk, hl0, hstrip0, if_pos]
    · simp only [hf, hlv, pyStripJ, if_neg hk]
  refine ⟨hmain, ?_, ?_, ?_⟩
  · intro hsf hsl
    have hsp : pyStrip ("" ++ " " ++ "") = "" := by decide
    rw [hmain, hsf, hsl, hsp, if_pos rfl]
  · intro hsl hnf
    have h1 : pyStrip (pyStrip f0 ++ " " ++ pyStrip l0) = pyStrip f0 := by
      rw [hsl, str_append_empty, pyStrip_strip_space]
    rw [hmain, h1, if_neg hnf]
  · intro oenv idt cst key hkey hdec
    unfold OpenIdConnect.get_user_info_from_id_token
    simp only [hkey, hdec]
    rfl

/-- An OIDC claim set with a first name needing trimming and an empty last
name. -/
def dataC4 : JsonObj :=
  [("email", JVal.str "u@example.com"), ("given_name", JVal.str " Grace "),
   ("family_name", JVal.str "")]

/-- Closed instantiation of claim C4: first name with surrounding spaces and
empty last name yield the trimmed first name. -/
theorem claim_C4_witness :
    (OpenIdConnect.get_user_info_from_user_info_endpoint oidcInst0 dataC4
        = Except.ok (jgetStr dataC4 oidcInst0.email_attr_key,
            if pyStrip (pyStrip " Grace " ++ " " ++ pyStrip "") = ""
            then jgetStr dataC4 oidcInst0.email_attr_key
            else some (pyStrip (pyStrip " Grace " ++ " " ++ pyStrip ""))))
    ∧ (pyStrip " Grace " = "" → pyStrip "" = "" →
        OpenIdConnect.get_user_info_from_user_info_endpoint oidcInst0 dataC4
          = Except.ok (jgetStr dataC4 oidcInst0.email_attr_key,
              jgetStr dataC4 oidcInst0.email_attr_key))
    ∧ (pyStrip "" = "" → pyStrip " Grace " ≠ "" →
        OpenIdConnect.get_user_info_from_user_info_endpoint oidcInst0 dataC4
          = Except.ok (jgetStr dataC4 oidcInst0.email_attr_key,
              some (pyStrip " Grace ")))
    ∧ (∀ oenv idt cst key,
        (OpenIdConnect.get_verifying_key oenv.fetchJwks oidcInst0.jwks_url
            idt true cst).1 = Except.ok key →
        oenv.decode idt key oidcInst0.client_id oidcInst0.issuer
            = Except.ok dataC4 →
        (OpenIdConnect.get_user_info_from_id_token oenv oidcInst0 idt cst).1
          = OpenIdConnect.get_user_info_from_user_info_endpoint oidcInst0
              dataC4) :=
  claim_C4_display_name_synthesis oidcInst0 dataC4 " Grace " ""
    rfl (Or.inr ⟨by decide, rfl⟩)

/-- Claim C6: when the well-known discovery fetch fails, or its JSON lacks
one of the five required endpoint fields, OIDC create and update (with a
truthy base_url) raise InvalidProviderUrl and leave the persisted state
untouched: discovery runs before any persistence call. -/
theorem claim_C6_discovery_failure_no_persistence {σ : Type}
    (fetchWK : String → Except Exc JsonObj)
    (persistC : OpenIdConnect.CreateValues → WellKnownUrls → σ → σ)
    (persistU : OpenIdConnect.UpdateValues → WellKnownUrls → σ → σ)
    (persistPlain : OpenIdConnect.UpdateValues → σ → σ)
    (values : OpenIdConnect.CreateValues)
    (uvalues : OpenIdConnect.UpdateValues) (st : σ) (bu : String)
    (hcv : values.base_url = bu) (huv : uvalues.base_url = some bu)
    (hbu : bu ≠ "")
    (hfail : (∃ e, fetchWK (bu ++ "/.well-known/openid-configuration")
        = Except.error e)
      ∨ (∃ j, fetchWK (bu ++ "/.well-known/openid-configuration")
          = Except.ok j
        ∧ (jget j "authorization_endpoint" = none
          ∨ jget j "token_endpoint" = none
          ∨ jget j "userinfo_endpoint" = none
          ∨ jget j "jwks_uri" = none
          ∨ jget j "issuer" = none))) :
    OpenIdConnect.create fetchWK persistC values st
        = (Except.error Exc.invalidProviderUrl, st)
    ∧ OpenIdConnect.update fetchWK persistU persistPlain uvalues st
        = (Except.error Exc.invalidProviderUrl, st) := by
  have hw : OpenIdConnect.get_wellknown_urls fetchWK bu
      = Except.error Exc.invalidProviderUrl := by
    unfold OpenIdConnect.get_wellknown_urls
    rcases hfail with ⟨e, he⟩ | ⟨j, hj, hm⟩
    · rw [he]
    · simp only [hj]
      cases h1 : jget j "authorization_endpoint" with
      | none => rfl
      | some a =>
        cases h2 : jget j "token_endpoint" with
        | none => rfl
        | some b =>
          cases h3 : jget j "userinfo_endpoint" with
          | none => rfl
          | some c =>
            cases h4 : jget j "jwks_uri" with
            | none => rfl
            | some d =>
              cases h5 : jget j "issuer" with
              | none => rfl
              | some i => rcases hm with h | h | h | h | h <;> simp_all
  constructor
  · unfold OpenIdConnect.create
    rw [hcv, hw]
  · unfold OpenIdConnect.update
    rw [huv]
    simp only [if_neg hbu, hw]

/-- Closed instantiation of claim C6 at a failing discovery fetch with a
counter as persistence state. -/
theorem claim_C6_witness :
    OpenIdConnect.create fetchWKerr (fun _ _ (n : Nat) => n + 1)
        { base_url := "https://bad" } 0
        = (Except.error Exc.invalidProviderUrl, 0)
    ∧ OpenIdConnect.update fetchWKerr (fun _ _ (n : Nat) => n + 1)
        (fun _ n => n + 1) { base_url := some "https://bad" } 0
        = (Except.error Exc.invalidProviderUrl, 0) :=
  claim_C6_discovery_failure_no_persistence fetchWKerr
    (fun _ _ n => n + 1) (fun _ _ n => n + 1) (fun _ n => n + 1)
    { base_url := "https://bad" } { base_url := some "https://bad" } 0
    "https://bad" rfl rfl (by decide)
    (Or.inl ⟨Exc.httpError "timeout", rfl⟩)

/-- Counterexample to claim C1 as stated: with no stored oauth_state and a
provider that accepts the code, the callback path completes and returns a
UserInfo; it does not raise AuthFlowError.  The state-less else branch of
get_oauth_session builds the client without CSRF state instead of
raising. -/
theorem claim_C1_counterexample :
    scontains ([] : Session) "oauth_state" = false
    ∧ (BaseOAuth2.get_user_info env0 inst0 "code" []).1
        = Except.ok
            ({ name := some "Ada", email := some "ada@example.com",
               workspace_invitation_token := none, language := none },
             "") :=
  ⟨rfl, rfl⟩

/-- Claim C1 amended: a session with no stored oauth_state does not make the
callback fail; get_oauth_session returns a client whose state is none
without raising, get_oauth_token_and_response raises AuthFlowError exactly
when the token-exchange or user-info HTTP step itself fails, and when that
step and the user-info extraction succeed, get_user_info completes and
returns the UserInfo. -/
theorem claim_C1_amended_missing_state_not_checked (env : HttpEnv)
    (inst : AuthProviderModel) (code : String) (session : Session)
    (h : scontains session "oauth_state" = false) :
    BaseOAuth2.get_oauth_session inst session
        = ({ client_id := inst.client_id,
             redirect_uri := BaseOAuth2.get_callback_url inst,
             scope := inst.scope, state := none }, session)
    ∧ ((BaseOAuth2.get_oauth_token_and_response env inst code session).1
          = Except.error (Exc.authFlowError none)
        ↔ ∃ e, BaseOAuth2.token_and_userinfo_body env inst
            (BaseOAuth2.get_oauth_session inst session).1 code
              = Except.error e)
    ∧ (∀ t j r s2,
        BaseOAuth2.token_and_userinfo_body env inst
            (BaseOAuth2.get_oauth_session inst session).1 code
          = Except.ok (t, j) →
        BaseOAuth2.get_user_info_from_oauth_json_response j session
          = (Except.ok r, s2) →
        BaseOAuth2.get_user_info env inst code session
          = (Except.ok r, s2)) := by
  have hsess : BaseOAuth2.get_oauth_session inst session
      = ({ client_id := inst.client_id,
           redirect_uri := BaseOAuth2.get_callback_url inst,
           scope := inst.scope, state := none }, session) := by
    unfold BaseOAuth2.get_oauth_session
    simp [h]
  refine ⟨hsess, ?_, ?_⟩
  · constructor
    · intro hr
      cases hb : BaseOAuth2.token_and_userinfo_body env inst
          (BaseOAuth2.get_oauth_session inst session).1 code with
      | error e => exact ⟨e, rfl⟩
      | ok r =>
        unfold BaseOAuth2.get_oauth_token_and_response at hr
        simp only [hb] at hr
        exact Except.noConfusion hr
    · rintro ⟨e, he⟩
      unfold BaseOAuth2.get_oauth_token_and_response
      simp only [he]
  · intro t j r s2 hb hres
    unfold BaseOAuth2.get_user_info BaseOAuth2.get_oauth_token_and_response
    simp only [hb]
    rw [hsess]
    exact hres

/-- Closed instantiation of the amended claim C1 at a session with no
state. -/
theorem claim_C1_witness :
    BaseOAuth2.get_oauth_session inst0 []
        = ({ client_id := inst0.client_id,
             redirect_uri := BaseOAuth2.get_callback_url inst0,
             scope := inst0.scope, state := none }, [])
    ∧ ((BaseOAuth2.get_oauth_token_and_response env0 inst0 "code" []).1
          = Except.error (Exc.authFlowError none)
        ↔ ∃ e, BaseOAuth2.token_and_userinfo_body env0 inst0
            (BaseOAuth2.get_oauth_session inst0 []).1 "code"
              = Except.error e)
    ∧ (∀ t j r s2,
        BaseOAuth2.token_and_userinfo_body env0 inst0
            (BaseOAuth2.get_oauth_session inst0 []).1 "code"
          = Except.ok (t, j) →
        BaseOAuth2.get_user_info_from_oauth_json_response j []
          = (Except.ok r, s2) →
        BaseOAuth2.get_user_info env0 inst0 "code" []
          = (Except.ok r, s2)) :=
  claim_C1_amended_missing_state_not_checked env0 inst0 "code" [] rfl

/-- Counterexample to claim C8 as stated: when the session already holds an
oauth_state, get_oauth_session pops it and passes it to the client, whose
authorization_url reuses it, so the stored and returned CSRF state is the
stale value, not a fresh random one. -/
theorem claim_C8_counterexample :
    sget (BaseOAuth2.get_authorization_url inst0 [("oauth_state", "old")] []
        "fresh").2 "oauth_state" = some "old"
    ∧ "old" ≠ "fresh" :=
  ⟨rfl, by decide⟩

/-- Claim C8 amended: get_authorization_url returns the authorization URL
assembled from the provider endpoint, client id, callback URI, scope and the
effective CSRF state, which is the freshly generated random state exactly
when the session held no prior oauth_state and is the reused prior state
otherwise; afterwards the session holds the effective state under
oauth_state and the JSON-serialized query parameters under
oauth_request_data, and no other key changes.  The function consumes no HTTP
oracle: it makes no network call. -/
theorem claim_C8_amended_authorization_url_effects
    (inst : AuthProviderModel) (session : Session)
    (query_params : ReqParams) (fresh : String) :
    ((BaseOAuth2.get_authorization_url inst session query_params fresh).1
        = BaseOAuth2.mk_authorization_url inst.authorization_url
            inst.client_id (BaseOAuth2.get_callback_url inst) inst.scope
            ((sget session "oauth_state").getD fresh))
    ∧ sget (BaseOAuth2.get_authorization_url inst session query_params
          fresh).2 "oauth_state"
        = some ((sget session "oauth_state").getD fresh)
    ∧ sget (BaseOAuth2.get_authorization_url inst session query_params
          fresh).2 "oauth_request_data" = some (dumps query_params)
    ∧ (∀ k, k ≠ "oauth_state" → k ≠ "oauth_request_data" →
        sget (BaseOAuth2.get_authorization_url inst session query_params
          fresh).2 k = sget session k)
    ∧ (scontains session "oauth_state" = false →
        (sget session "oauth_state").getD fresh = fresh) := by
  cases hc : scontains session "oauth_state" with
  | true =>
    have hc' : (sget session "oauth_state").isSome = true := hc
    obtain ⟨v, hv⟩ := Option.isSome_iff_exists.mp hc'
    have hgo : BaseOAuth2.get_oauth_session inst session
        = ({ client_id := inst.client_id,
             redirect_uri := BaseOAuth2.get_callback_url inst,
             scope := inst.scope, state := some v },
           sremove session "oauth_state") := by
      unfold BaseOAuth2.get_oauth_session
      simp [hc, spop, hv]
    have hres : BaseOAuth2.get_authorization_url inst session query_params
        fresh
        = (BaseOAuth2.mk_authorization_url inst.authorization_url
            inst.client_id (BaseOAuth2.get_callback_url inst) inst.scope v,
           sinsert (sinsert (sremove session "oauth_state") "oauth_state" v)
             "oauth_request_data"
             (dumps (if query_params.isEmpty then [] else query_params)))
        := by
      unfold BaseOAuth2.get_authorization_url
        BaseOAuth2.oauth_authorization_url
        BaseOAuth2.push_request_data_to_session
      rw [hgo]
      rfl
    refine ⟨?_, ?_, ?_, ?_, ?_⟩
    · rw [hres, hv]
      rfl
    · rw [hres, hv]
      simp only [Option.getD_some]
      rw [sget_sinsert_ne _ _ _ _ (by decide), sget_sinsert_self]
    · rw [hres, sget_sinsert_self, dumps_or_empty]
    · intro k hk1 hk2
      rw [hres, sget_sinsert_ne _ _ _ _ hk2, sget_sinsert_ne _ _ _ _ hk1,
        sget_sremove_ne _ _ _ hk1]
    · intro hfalse
      exact Bool.noConfusion hfalse
  | false =>
    have hc' : (sget session "oauth_state").isSome = false := hc
    have hv : sget session "oauth_state" = none := by
      cases hs : sget session "oauth_state" with
      | none => rfl
      | some w => rw [hs] at hc'; exact Bool.noConfusion hc'
    have hgo : BaseOAuth2.get_oauth_session inst session
        = ({ client_id := inst.client_id,
             redirect_uri := BaseOAuth2.get_callback_url inst,
             scope := inst.scope, state := none }, session) := by
      unfold BaseOAuth2.get_oauth_session
      simp [hc]
    have hres : BaseOAuth2.get_authorization_url inst session query_params
        fresh
        = (BaseOAuth2.mk_authorization_url inst.authorization_url
            inst.client_id (BaseOAuth2.get_callback_url inst) inst.scope
            fresh,
           sinsert (sinsert session "oauth_state" fresh)
             "oauth_request_data"
             (dumps (if query_params.isEmpty then [] else query_params)))
        := by
      unfold BaseOAuth2.get_authorization_url
        BaseOAuth2.oauth_authorization_url
        BaseOAuth2.push_request_data_to_session
      rw [hgo]
      rfl
    refine ⟨?_, ?_, ?_, ?_, ?_⟩
    · rw [hres, hv]
      rfl
    · rw [hres, hv]
      simp only [Option.getD_none]
      rw [sget_sinsert_ne _ _ _ _ (by decide), sget_sinsert_self]
    · rw [hres, sget_sinsert_self, dumps_or_empty]
    · intro k hk1 hk2
      rw [hres, sget_sinsert_ne _ _ _ _ hk2, sget_sinsert_ne _ _ _ _ hk1]
    · intro _
      rw [hv]
      rfl

/-- Closed instantiation of the amended claim C8 at a session with no prior
state. -/
theorem claim_C8_witness :
    ((BaseOAuth2.get_authorization_url inst0 [] [("language", "en")]
        "fresh").1
        = BaseOAuth2.mk_authorization_url inst0.authorization_url
            inst0.client_id (BaseOAuth2.get_callback_url inst0) inst0.scope
            ((sget [] "oauth_state").getD "fresh"))
    ∧ sget (BaseOAuth2.get_authorization_url inst0 [] [("language", "en")]
          "fresh").2 "oauth_state"
        = some ((sget [] "oauth_state").getD "fresh")
    ∧ sget (BaseOAuth2.get_authorization_url inst0 [] [("language", "en")]
          "fresh").2 "oauth_request_data"
        = some (dumps [("language", "en")])
    ∧ (∀ k, k ≠ "oauth_state" → k ≠ "oauth_request_data" →
        sget (BaseOAuth2.get_authorization_url inst0 [] [("language", "en")]
          "fresh").2 k = sget [] k)
    ∧ (scontains [] "oauth_state" = false →
        (sget ([] : Session) "oauth_state").getD "fresh" = "fresh") :=
  claim_C8_amended_authorization_url_effects inst0 [] [("language", "en")]
    "fresh"
